import Mathlib

/-!
Verification of the topcvetok.by backend against its specification.

The Python source under `app/` is shallowly embedded: Django model rows
become Lean structures, Decimal arithmetic becomes exact rational
arithmetic (`ℚ`), nullable fields become `Option`, querysets become
lists, and code that can raise becomes `Except`/`Option`.
-/

namespace Topcvetok

/-- A row of the `Attribute` model (`topcvetok/models.py`): only the fields
the verified code paths read (`id`, `price_modifier`, `is_active`). -/
structure Attribute where
  id : Nat
  price_modifier : ℚ
  is_active : Bool
  deriving Repr, DecidableEq

/-- A row of the `Product` model (`topcvetok/models.py`): the fields read by
the price computations and the order/checkout paths. `promotional_price`
is nullable (`blank=True, null=True`). -/
structure Product where
  id : Nat
  name : String
  description : String
  price : ℚ
  promotional_price : Option ℚ
  is_available : Bool
  deriving Repr, DecidableEq

/-- Embedding of `Product.get_price_with_attributes` (models.py lines
373–386): start from `price`, replace it by `promotional_price` when that
is not `None`, then add every selected attribute's `price_modifier`. -/
def Product.get_price_with_attributes (self : Product)
    (selected_attributes : List Attribute) : ℚ :=
  let base_price := self.price
  let base_price :=
    match self.promotional_price with
    | some promo => promo
    | none => base_price
  let total_modifier :=
    selected_attributes.foldl (fun acc attr => acc + attr.price_modifier) 0
  base_price + total_modifier

/-- The product's effective base price: `promotional_price` if set, else
`price` (the spec's wording of the starting point of the price rule). -/
def Product.effective_base_price (self : Product) : ℚ :=
  match self.promotional_price with
  | some promo => promo
  | none => self.price

lemma foldl_add_price_modifier (attrs : List Attribute) (acc : ℚ) :
    attrs.foldl (fun a attr => a + attr.price_modifier) acc
      = acc + (attrs.map Attribute.price_modifier).sum := by
  induction attrs generalizing acc with
  | nil => simp
  | cons x xs ih =>
      simp only [List.foldl_cons, List.map_cons, List.sum_cons, ih]
      ring

/-- C2: `get_price_with_attributes` equals (promotional_price if set else
price) plus the sum of the selected attributes' price modifiers, for every
product and every attribute list; no clamping of negative results. -/
theorem get_price_with_attributes_spec (p : Product) (attrs : List Attribute) :
    p.get_price_with_attributes attrs
      = (match p.promotional_price with
          | some promo => promo
          | none => p.price)
        + (attrs.map Attribute.price_modifier).sum := by
  unfold Product.get_price_with_attributes
  cases p.promotional_price <;> simp [foldl_add_price_modifier]

/-- The consent-related state of an `Order` row (models.py): `pk` is `none`
before the first save, `consent_date` is a nullable timestamp (modelled as
a `Nat` clock value). -/
structure OrderState where
  pk : Option Nat
  personal_data_consent : Bool
  consent_date : Option Nat
  deriving Repr, DecidableEq

/-- Embedding of `Order.save` (models.py lines 667–684). `db` is the stored
row fetched by `Order.objects.get(pk=self.pk)` (`none` models
`Order.DoesNotExist`), `now` models `timezone.now()`. Python's
`not self.consent_date` is true exactly when the field is `None`. -/
def Order.save (db : Option OrderState) (now : Nat) (self : OrderState) : OrderState :=
  let self :=
    if self.personal_data_consent ∧ self.consent_date = none then
      { self with consent_date := some now }
    else self
  match self.pk, db with
  | some _, some old_order =>
      if old_order.personal_data_consent ∧ ¬ self.personal_data_consent then
        { self with personal_data_consent := true, consent_date := old_order.consent_date }
      else self
  | _, _ => self

/-- C1: consent one-way ratchet. For an order already stored with
`personal_data_consent = true`, a save attempting to set it to `false`
leaves it `true` and leaves `consent_date` at the stored value; and any
save with `personal_data_consent = true` and no `consent_date` stores a
non-null `consent_date` (the current time). -/
theorem order_consent_ratchet (old self : OrderState) (now : Nat) :
    (self.pk.isSome → old.personal_data_consent = true →
      self.personal_data_consent = false →
        (Order.save (some old) now self).personal_data_consent = true ∧
        (Order.save (some old) now self).consent_date = old.consent_date)
    ∧ (∀ db : Option OrderState, self.personal_data_consent = true →
        self.consent_date = none →
        (Order.save db now self).consent_date = some now) := by
  constructor
  · intro hpk hold hattempt
    unfold Order.save
    simp only [hattempt, Bool.false_eq_true, false_and, if_false, ite_false]
    obtain ⟨k, hk⟩ := Option.isSome_iff_exists.mp hpk
    rw [hk]
    simp [hold, hattempt]
  · intro db hc hd
    unfold Order.save
    simp only [hc, hd, true_and, if_true, ite_true]
    cases db with
    | none => cases hpk : self.pk <;> simp
    | some old_order =>
        cases hpk : self.pk with
        | none => simp
        | some k => simp [hc]

/-- Closed witness for `order_consent_ratchet` at a concrete stored order
(consent already true, date set at time 5) and a save attempting to revoke
consent, plus a concrete first save with consent and no date. -/
theorem order_consent_ratchet_witness :
    ((Order.save (some ⟨some 1, true, some 5⟩) 9
        ⟨some 1, false, none⟩).personal_data_consent = true ∧
      (Order.save (some ⟨some 1, true, some 5⟩) 9
        ⟨some 1, false, none⟩).consent_date = some 5) ∧
    (Order.save none 7 ⟨none, true, none⟩).consent_date = some 7 :=
  ⟨(order_consent_ratchet ⟨some 1, true, some 5⟩ ⟨some 1, false, none⟩ 9).1
      (by decide) (by decide) (by decide),
    (order_consent_ratchet ⟨some 1, true, some 5⟩ ⟨none, true, none⟩ 7).2
      none (by decide) (by decide)⟩

/-- The `DeliveryType` text choices (enums.py). -/
inductive DeliveryType where
  | minsk
  | belarus
  | pickup
  deriving Repr, DecidableEq

/-- A clock time as stored in a Django `TimeField`; the delivery-price
algorithm only ever reads the `hour` component. -/
structure PyTime where
  hour : Nat
  minute : Nat
  deriving Repr, DecidableEq

/-- A row of the `DeliveryMethod` model, with exactly the price/time fields
declared in models.py lines 440–505. `early_delivery_price` and
`late_delivery_price` are deliberately absent: the model declares no such
fields. -/
structure DeliveryMethod where
  delivery_type : DeliveryType
  base_price : ℚ
  free_delivery_min_amount : Option ℚ
  working_hours_start : PyTime
  working_hours_end : PyTime
  low_amount_delivery_price : ℚ
  low_amount_early_price : ℚ
  low_amount_late_price : ℚ
  late_delivery_min_amount : Option ℚ
  is_active : Bool
  deriving Repr, DecidableEq

/-- Python's `(self.free_delivery_min_amount or 0)`: `None` → 0 (and a
stored 0 is already 0). -/
def orZero (x : Option ℚ) : ℚ := x.getD 0

/-- Embedding of `DeliveryMethod.calculate_delivery_price` (models.py lines
518–558). Reading the undeclared attributes `early_delivery_price` /
`late_delivery_price` raises `AttributeError` in Python; those reads are
embedded as `Except.error`. The redundant inner `late_delivery_min_amount`
check of the source (both arms return `low_amount_late_price`) is kept. -/
def DeliveryMethod.calculate_delivery_price (self : DeliveryMethod)
    (order_amount : ℚ) (delivery_time : Option PyTime) (is_holiday : Bool) :
    Except String ℚ :=
  if self.delivery_type = DeliveryType.pickup then .ok 0
  else
    match delivery_time with
    | some t =>
        let delivery_hour := t.hour
        if delivery_hour < self.working_hours_start.hour then
          if order_amount ≥ orZero self.free_delivery_min_amount then
            .error "AttributeError: early_delivery_price"
          else
            .ok self.low_amount_early_price
        else if delivery_hour ≥ self.working_hours_end.hour then
          if order_amount ≥ orZero self.free_delivery_min_amount then
            .error "AttributeError: late_delivery_price"
          else
            if (match self.late_delivery_min_amount with
                | some m => decide (order_amount ≥ m)
                | none => false) = true then
              .ok self.low_amount_late_price
            else
              .ok self.low_amount_late_price
        else
          if order_amount ≥ orZero self.free_delivery_min_amount then .ok 0
          else .ok self.low_amount_delivery_price
    | none =>
        if order_amount ≥ orZero self.free_delivery_min_amount then .ok 0
        else .ok self.low_amount_delivery_price

/-- C3: pickup methods always cost 0, whatever the other arguments; a
non-pickup method asked for a delivery hour before working hours (or
at/after their end) with an order amount at or above the free-delivery
minimum hits a read of the undeclared `early_delivery_price` /
`late_delivery_price` attribute and fails with an error instead of
returning a price. -/
theorem calculate_delivery_price_pickup_and_missing_fields
    (m : DeliveryMethod) (order_amount : ℚ) (t : PyTime) (is_holiday : Bool) :
    (m.delivery_type = DeliveryType.pickup →
      ∀ (dt : Option PyTime) (hol : Bool),
        m.calculate_delivery_price order_amount dt hol = .ok 0)
    ∧ (m.delivery_type ≠ DeliveryType.pickup →
        (t.hour < m.working_hours_start.hour ∨ t.hour ≥ m.working_hours_end.hour) →
        order_amount ≥ orZero m.free_delivery_min_amount →
        ∃ e, m.calculate_delivery_price order_amount (some t) is_holiday = .error e) := by
  constructor
  · intro hp dt hol
    unfold DeliveryMethod.calculate_delivery_price
    simp [hp]
  · intro hp ht hamt
    unfold DeliveryMethod.calculate_delivery_price
    rcases ht with hearly | hlate
    · exact ⟨"AttributeError: early_delivery_price", by simp [hp, hearly, hamt]⟩
    · by_cases hearly : t.hour < m.working_hours_start.hour
      · exact ⟨"AttributeError: early_delivery_price", by simp [hp, hearly, hamt]⟩
      · exact ⟨"AttributeError: late_delivery_price", by simp [hp, hearly, hlate, hamt]⟩

/-- Closed witness: a concrete pickup method returns 0, and a concrete
Minsk delivery method asked for a 7:00 delivery of a 300-rouble order
(free-delivery minimum 250) fails with an error. -/
theorem calculate_delivery_price_witness :
    ((DeliveryMethod.mk DeliveryType.pickup 0 (some 250) ⟨8, 0⟩ ⟨22, 0⟩
        12 24 24 (some 170) true).calculate_delivery_price 300
        (some ⟨7, 0⟩) false = .ok 0)
    ∧ ∃ e, (DeliveryMethod.mk DeliveryType.minsk 0 (some 250) ⟨8, 0⟩ ⟨22, 0⟩
        12 24 24 (some 170) true).calculate_delivery_price 300
        (some ⟨7, 0⟩) false = .error e :=
  ⟨(calculate_delivery_price_pickup_and_missing_fields
      (DeliveryMethod.mk DeliveryType.pickup 0 (some 250) ⟨8, 0⟩ ⟨22, 0⟩
        12 24 24 (some 170) true) 300 ⟨7, 0⟩ false).1 (by decide)
      (some ⟨7, 0⟩) false,
    (calculate_delivery_price_pickup_and_missing_fields
      (DeliveryMethod.mk DeliveryType.minsk 0 (some 250) ⟨8, 0⟩ ⟨22, 0⟩
        12 24 24 (some 170) true) 300 ⟨7, 0⟩ false).2 (by decide)
      (Or.inl (by decide)) (by norm_num [orZero])⟩

/-- The catalog tables that `CalculatePriceView.post` queries. Rows carry
unique ids (Django primary keys). -/
structure Catalog where
  products : List Product
  attributes : List Attribute
  deriving Repr

/-- The responses `CalculatePriceView.post` can produce (views.py lines
729–769): HTTP 400 when `product_id` is absent/falsy, HTTP 404 when no
available product matches, or HTTP 200 with the computed payload. -/
inductive CalcResponse where
  | badRequest (error : String)
  | notFound (error : String)
  | ok (product_id : Nat) (base_price : ℚ) (final_price : ℚ)
      (modifiers : List ℚ) (total_modifier : ℚ)
  deriving Repr, DecidableEq

/-- The queryset `Attribute.objects.filter(id__in=attribute_ids, is_active=True)`. -/
def Catalog.activeSelected (db : Catalog) (attribute_ids : List Nat) : List Attribute :=
  db.attributes.filter (fun a => attribute_ids.contains a.id && a.is_active)

/-- Embedding of `CalculatePriceView.post` (views.py lines 729–769).
`Product.objects.get(id=product_id, is_available=True)` is the first
matching row; when the active-attribute queryset is empty (also when
`attribute_ids` is empty) the code falls back to the plain `price`. -/
def CalculatePriceView.post (db : Catalog) (product_id : Option Nat)
    (attribute_ids : List Nat) : CalcResponse :=
  match product_id with
  | none => .badRequest "Не указан ID продукта"
  | some pid =>
      if pid = 0 then .badRequest "Не указан ID продукта"
      else
        match db.products.find? (fun p => p.id == pid && p.is_available) with
        | none => .notFound "Продукт не найден"
        | some product =>
            let attrs :=
              if attribute_ids ≠ [] then db.activeSelected attribute_ids
              else []
            if attrs ≠ [] then
              let modifiers := attrs.map Attribute.price_modifier
              .ok product.id product.price (product.get_price_with_attributes attrs)
                modifiers modifiers.sum
            else
              .ok product.id product.price product.price [] 0

/-- C4 counterexample: for a catalog whose one product has price 45 and
promotional price 40, a calculate-price request with an empty
`attribute_ids` list answers `final_price = 45` (the plain price), while
the claimed rule — `get_price_with_attributes` of the selected attributes,
i.e. promotional price plus no modifiers — gives 40. -/
theorem calculate_price_promo_counterexample :
    CalculatePriceView.post
        ⟨[⟨1, "rose", "", 45, some 40, true⟩], []⟩ (some 1) []
      = .ok 1 45 45 [] 0
    ∧ (Product.mk 1 "rose" "" 45 (some 40) true).get_price_with_attributes [] = 40
    ∧ (45 : ℚ) ≠ 40 := by
  refine ⟨rfl, ?_, by norm_num⟩
  simp [Product.get_price_with_attributes]

/-- C4 (amended): the endpoint 404s exactly when no available product has
the requested id; on success `base_price` is the plain price, and
`final_price` follows the model's price+modifiers rule only when at least
one active listed attribute exists — otherwise it is the plain price, with
an empty modifier list and zero total. -/
theorem calculate_price_post_spec (db : Catalog) (pid : Nat)
    (attribute_ids : List Nat) (hpid : pid ≠ 0) :
    (db.products.find? (fun p => p.id == pid && p.is_available) = none →
      CalculatePriceView.post db (some pid) attribute_ids
        = .notFound "Продукт не найден")
    ∧ (∀ product,
        db.products.find? (fun p => p.id == pid && p.is_available) = some product →
        (db.activeSelected attribute_ids = [] ∨ attribute_ids = [] →
          CalculatePriceView.post db (some pid) attribute_ids
            = .ok product.id product.price product.price [] 0)
        ∧ (∀ attrs,
            attribute_ids ≠ [] →
            db.activeSelected attribute_ids = attrs →
            attrs ≠ [] →
            CalculatePriceView.post db (some pid) attribute_ids
              = .ok product.id product.price
                  (product.get_price_with_attributes attrs)
                  (attrs.map Attribute.price_modifier)
                  (attrs.map Attribute.price_modifier).sum)) := by
  constructor
  · intro hfind
    unfold CalculatePriceView.post
    simp [hpid, hfind]
  · intro product hfind
    constructor
    · intro hempty
      unfold CalculatePriceView.post
      rcases hempty with hempty | hempty
      · by_cases hids : attribute_ids = [] <;> simp [hpid, hfind, hids, hempty]
      · simp [hpid, hfind, hempty]
    · intro attrs hids hfilter hne
      unfold CalculatePriceView.post
      simp [hpid, hfind, hids, hfilter, hne]

/-- Closed witness for the amended C4 theorem: a missing product 404s, and
a product with an active +5 attribute selected yields the promotional
price plus the modifier. -/
theorem calculate_price_post_spec_witness :
    (CalculatePriceView.post ⟨[], []⟩ (some 3) [] = .notFound "Продукт не найден")
    ∧ CalculatePriceView.post
        ⟨[⟨1, "rose", "", 45, some 40, true⟩], [⟨7, 5, true⟩]⟩ (some 1) [7]
      = .ok 1 45 45 [5] 5 :=
  ⟨(calculate_price_post_spec ⟨[], []⟩ 3 [] (by decide)).1 rfl,
    by
      have h := ((calculate_price_post_spec
          ⟨[⟨1, "rose", "", 45, some 40, true⟩], [⟨7, 5, true⟩]⟩ 1 [7]
          (by decide)).2 ⟨1, "rose", "", 45, some 40, true⟩ rfl).2
          [⟨7, 5, true⟩] (by decide) rfl (by decide)
      norm_num [Product.get_price_with_attributes] at h
      exact h⟩

/-- Python's `str.isdigit()` on the ASCII passwords the validator targets:
non-empty and every character a digit. -/
def pyIsdigit (cs : List Char) : Bool :=
  !cs.isEmpty && cs.all Char.isDigit

/-- `re.findall(r"\d", password)` is non-empty. -/
def hasDigit (cs : List Char) : Bool :=
  cs.any Char.isDigit

/-- `re.findall("[A-Z]", password)` is non-empty. -/
def hasUpperLatin (cs : List Char) : Bool :=
  cs.any (fun c => 'A' ≤ c && c ≤ 'Z')

/-- `re.findall("[a-z]", password)` is non-empty. -/
def hasLowerLatin (cs : List Char) : Bool :=
  cs.any (fun c => 'a' ≤ c && c ≤ 'z')

/-- The validator's punctuation character class, transcribed from the raw
regex in validators.py (note it literally contains `z` and both braces). -/
def passwordSymbols : List Char :=
  ['(', ')', '[', ']', '\x7b', 'z', '\x7d', '|', '\\', '\x60', '~', '!',
    '@', '#', '$', '%', '^', '&', '*', '_', '-', '+', '=', ';', ':',
    '\x27', '\x22', ',', '<', '>', '.', '/', '?']

/-- The punctuation-class findall is non-empty. -/
def hasPasswordSymbol (cs : List Char) : Bool :=
  cs.any (fun c => decide (c ∈ passwordSymbols))

/-- Embedding of `PasswordValidator.validate` (validators.py lines 7–32):
the six sequential checks, each raising `ValidationError` (code
`password_insecure`) with the given message. -/
def PasswordValidator.validate (password : String) : Except String Unit :=
  if pyIsdigit password.toList then
    .error "Пароль не может состоять только из цифр."
  else if password.length < 8 then
    .error "Длина пароля должна быть не меньше 8 символов."
  else if !hasDigit password.toList then
    .error "Пароль должен содержать хотя бы одну цифру."
  else if !hasUpperLatin password.toList then
    .error "Пароль должен содержать хотя бы одну букву латиницы в верхнем регистре."
  else if !hasLowerLatin password.toList then
    .error "Пароль должен содержать хотя бы одну букву латиницы в нижнем регистре."
  else if !hasPasswordSymbol password.toList then
    .error "Пароль должен содержать хотя бы один символ."
  else .ok ()

lemma not_guard_chain (P1 P2 P3 P4 P5 P6 : Prop) :
    ¬ (¬ P1 ∧ ¬ P2 ∧ P3 ∧ P4 ∧ P5 ∧ P6)
      ↔ (P1 ∨ P2 ∨ ¬ P3 ∨ ¬ P4 ∨ ¬ P5 ∨ ¬ P6) := by
  tauto

/-- C5: the validator rejects a password exactly when it is all digits, or
shorter than 8 characters, or has no digit, no uppercase Latin letter, no
lowercase Latin letter, or no character of the punctuation class; and
every password shorter than 8 characters is rejected. -/
theorem password_validate_spec (password : String) :
    ((∃ e, PasswordValidator.validate password = .error e) ↔
      ((password.toList ≠ [] ∧ ∀ c ∈ password.toList, c.isDigit)
        ∨ password.length < 8
        ∨ ¬ (∃ c ∈ password.toList, c.isDigit)
        ∨ ¬ (∃ c ∈ password.toList, 'A' ≤ c ∧ c ≤ 'Z')
        ∨ ¬ (∃ c ∈ password.toList, 'a' ≤ c ∧ c ≤ 'z')
        ∨ ¬ (∃ c ∈ password.toList, c ∈ passwordSymbols)))
    ∧ (password.length < 8 →
        ∃ e, PasswordValidator.validate password = .error e) := by
  have hcases : ∀ v : Except String Unit,
      (∃ e, v = .error e) ↔ ¬ v = .ok () := by
    intro v
    cases v with
    | ok u => cases u; simp
    | error e => simp
  have h1 : pyIsdigit password.toList = true ↔
      (password.toList ≠ [] ∧ ∀ c ∈ password.toList, c.isDigit) := by
    simp [pyIsdigit, List.all_eq_true, List.isEmpty_iff]
  have h3 : hasDigit password.toList = true ↔
      (∃ c ∈ password.toList, c.isDigit) := by
    simp [hasDigit, List.any_eq_true]
  have h4 : hasUpperLatin password.toList = true ↔
      (∃ c ∈ password.toList, 'A' ≤ c ∧ c ≤ 'Z') := by
    simp [hasUpperLatin, List.any_eq_true]
  have h5 : hasLowerLatin password.toList = true ↔
      (∃ c ∈ password.toList, 'a' ≤ c ∧ c ≤ 'z') := by
    simp [hasLowerLatin, List.any_eq_true]
  have h6 : hasPasswordSymbol password.toList = true ↔
      (∃ c ∈ password.toList, c ∈ passwordSymbols) := by
    simp [hasPasswordSymbol, List.any_eq_true]
  have hok : PasswordValidator.validate password = .ok () ↔
      (¬ pyIsdigit password.toList = true
        ∧ ¬ password.length < 8
        ∧ hasDigit password.toList = true
        ∧ hasUpperLatin password.toList = true
        ∧ hasLowerLatin password.toList = true
        ∧ hasPasswordSymbol password.toList = true) := by
    unfold PasswordValidator.validate
    split_ifs with hb1 hb2 hb3 hb4 hb5 hb6 <;> simp_all
  have main : (∃ e, PasswordValidator.validate password = .error e) ↔
      ((password.toList ≠ [] ∧ ∀ c ∈ password.toList, c.isDigit)
        ∨ password.length < 8
        ∨ ¬ (∃ c ∈ password.toList, c.isDigit)
        ∨ ¬ (∃ c ∈ password.toList, 'A' ≤ c ∧ c ≤ 'Z')
        ∨ ¬ (∃ c ∈ password.toList, 'a' ≤ c ∧ c ≤ 'z')
        ∨ ¬ (∃ c ∈ password.toList, c ∈ passwordSymbols)) := by
    rw [hcases, hok, h1, h3, h4, h5, h6]
    exact not_guard_chain _ _ _ _ _ _
  exact ⟨main, fun h => main.mpr (Or.inr (Or.inl h))⟩

/-- Closed witness: applying the C5 theorem at the concrete 3-character
password "Aa1" (all four character classes would need checking, yet it is
rejected for being short). -/
theorem password_validate_spec_witness :
    ("Aa1".length < 8) ∧ ∃ e, PasswordValidator.validate "Aa1" = .error e :=
  ⟨by decide, (password_validate_spec "Aa1").2 (by decide)⟩

/-- A product as seen by the catalog price filter: its own price and the
(non-null) prices of its variants. A variant whose nullable price is NULL
never satisfies a SQL comparison, so such variants are simply absent. -/
structure FilterProduct where
  price : ℚ
  variantPrices : List ℚ
  deriving Repr, DecidableEq

/-- Python whitespace for `str.strip()`. -/
def isPySpace (c : Char) : Bool :=
  c = ' ' || c = '\t' || c = '\n' || c = '\r' || c = '\x0b' || c = '\x0c'

/-- `str.strip()` on a character list. -/
def stripChars (cs : List Char) : List Char :=
  ((cs.dropWhile isPySpace).reverse.dropWhile isPySpace).reverse

/-- Value of a digit string. -/
def digitsVal (cs : List Char) : Nat :=
  cs.foldl (fun a c => 10 * a + (c.toNat - '0'.toNat)) 0

/-- An unsigned decimal literal: digits with at most one decimal point and
at least one digit overall. -/
def parseUnsigned (cs : List Char) : Option ℚ :=
  let intPart := cs.takeWhile Char.isDigit
  let rest := cs.dropWhile Char.isDigit
  match rest with
  | [] => if intPart.isEmpty then none else some (digitsVal intPart)
  | '.' :: frac =>
      if frac.all Char.isDigit && !(intPart.isEmpty && frac.isEmpty) then
        some ((digitsVal intPart : ℚ) + (digitsVal frac : ℚ) / (10 ^ frac.length))
      else none
  | _ => none

/-- Models Python `float(s.strip())` on the plain decimal literals the
price filter receives: optional surrounding whitespace, optional sign,
digits with at most one decimal point; anything else fails. (Exponent,
`inf` and `nan` spellings are not modelled.) -/
def pyFloat (cs : List Char) : Option ℚ :=
  match stripChars cs with
  | '+' :: rest => parseUnsigned rest
  | '-' :: rest => (parseUnsigned rest).map Neg.neg
  | rest => parseUnsigned rest

/-- `value.split(sep, 1)`: `none` when `sep ∉ value`, otherwise the parts
before and after the first occurrence. -/
def splitOnce (sep : Char) : List Char → Option (List Char × List Char)
  | [] => none
  | c :: cs =>
      if c = sep then some ([], cs)
      else (splitOnce sep cs).map (fun p => (c :: p.1, p.2))

/-- Embedding of `ProductFilter.filter_by_price_range` (filters.py lines
89–134): empty value returns the queryset unchanged; a value containing
`-` is parsed as "min-max" (inclusive both bounds), a value ending in `+`
as "min+" (at least min), anything else as an exact price; any
`float()` failure is caught and yields `queryset.none()`, the empty set.
Unless `parent_matches_only` is requested, variant prices also match. -/
def ProductFilter.filter_by_price_range (parent_matches_only : Bool)
    (queryset : List FilterProduct) (value : List Char) : List FilterProduct :=
  if value = [] then queryset
  else
    match splitOnce '-' value with
    | some (mn, mx) =>
        match pyFloat mn, pyFloat mx with
        | some min_price, some max_price =>
            if parent_matches_only then
              queryset.filter (fun p =>
                decide (min_price ≤ p.price ∧ p.price ≤ max_price))
            else
              queryset.filter (fun p =>
                decide (min_price ≤ p.price ∧ p.price ≤ max_price)
                  || p.variantPrices.any (fun q => decide (min_price ≤ q ∧ q ≤ max_price)))
        | _, _ => []
    | none =>
        if value.getLast? = some '+' then
          match pyFloat value.dropLast with
          | some min_price =>
              if parent_matches_only then
                queryset.filter (fun p => decide (min_price ≤ p.price))
              else
                queryset.filter (fun p =>
                  decide (min_price ≤ p.price)
                    || p.variantPrices.any (fun q => decide (min_price ≤ q)))
          | none => []
        else
          match pyFloat value with
          | some exact_price =>
              if parent_matches_only then
                queryset.filter (fun p => decide (p.price = exact_price))
              else
                queryset.filter (fun p =>
                  decide (p.price = exact_price)
                    || p.variantPrices.any (fun q => decide (q = exact_price)))
          | none => []

/-- C6: "A-B" filters to the inclusive range, "A+" to prices at least A, a
bare number to an exact match (the product's own price or, unless
`parent_matches_only`, any variant price), and every unparseable value
yields the empty result set. -/
theorem filter_by_price_range_spec (qs : List FilterProduct)
    (pm : Bool) (value : List Char) :
    (∀ a b mn mx, splitOnce '-' value = some (a, b) →
      pyFloat a = some mn → pyFloat b = some mx →
      ∀ p, p ∈ ProductFilter.filter_by_price_range pm qs value ↔
        p ∈ qs ∧ ((mn ≤ p.price ∧ p.price ≤ mx)
          ∨ (pm = false ∧ ∃ q ∈ p.variantPrices, mn ≤ q ∧ q ≤ mx)))
    ∧ (∀ mn, splitOnce '-' value = none → value.getLast? = some '+' →
        pyFloat value.dropLast = some mn →
        ∀ p, p ∈ ProductFilter.filter_by_price_range pm qs value ↔
          p ∈ qs ∧ (mn ≤ p.price
            ∨ (pm = false ∧ ∃ q ∈ p.variantPrices, mn ≤ q)))
    ∧ (∀ ex, splitOnce '-' value = none → value.getLast? ≠ some '+' →
        pyFloat value = some ex →
        ∀ p, p ∈ ProductFilter.filter_by_price_range pm qs value ↔
          p ∈ qs ∧ (p.price = ex
            ∨ (pm = false ∧ ∃ q ∈ p.variantPrices, q = ex)))
    ∧ (∀ a b, splitOnce '-' value = some (a, b) →
        pyFloat a = none ∨ pyFloat b = none →
        ProductFilter.filter_by_price_range pm qs value = [])
    ∧ (splitOnce '-' value = none → value.getLast? = some '+' →
        pyFloat value.dropLast = none →
        ProductFilter.filter_by_price_range pm qs value = [])
    ∧ (value ≠ [] → splitOnce '-' value = none → value.getLast? ≠ some '+' →
        pyFloat value = none →
        ProductFilter.filter_by_price_range pm qs value = []) := by
  have hne : ∀ a b, splitOnce '-' value = some (a, b) → value ≠ [] := by
    intro a b hs hv
    rw [hv] at hs
    simp [splitOnce] at hs
  have hne2 : value.getLast? = some '+' → value ≠ [] := by
    intro hl hv
    rw [hv] at hl
    simp at hl
  refine ⟨?_, ?_, ?_, ?_, ?_, ?_⟩
  · intro a b mn mx hs ha hb p
    unfold ProductFilter.filter_by_price_range
    rw [if_neg (hne a b hs)]
    simp only [hs, ha, hb]
    cases pm <;> simp [List.mem_filter, List.any_eq_true]
  · intro mn hs hl hd p
    unfold ProductFilter.filter_by_price_range
    rw [if_neg (hne2 hl)]
    simp only [hs, hl, hd, if_true]
    cases pm <;> simp [List.mem_filter, List.any_eq_true]
  · intro ex hs hl hp p
    by_cases hv : value = []
    · rw [hv] at hp
      simp [pyFloat, stripChars, parseUnsigned] at hp
    · unfold ProductFilter.filter_by_price_range
      rw [if_neg hv]
      simp only [hs, if_neg hl, hp]
      cases pm <;> simp [List.mem_filter, List.any_eq_true]
  · intro a b hs hf
    unfold ProductFilter.filter_by_price_range
    rw [if_neg (hne a b hs)]
    simp only [hs]
    cases hfa : pyFloat a <;> cases hfb : pyFloat b <;> simp_all
  · intro hs hl hd
    unfold ProductFilter.filter_by_price_range
    rw [if_neg (hne2 hl)]
    simp only [hs, hl, hd, if_true]
  · intro hv hs hl hp
    unfold ProductFilter.filter_by_price_range
    rw [if_neg hv]
    simp only [hs, if_neg hl, hp]

/-- Closed witness: the spec's own examples — filter "100-500" includes a
product priced 250, and the unparseable "abc" filters everything out. -/
theorem filter_by_price_range_spec_witness :
    ((⟨250, []⟩ : FilterProduct) ∈
        ProductFilter.filter_by_price_range true [⟨250, []⟩, ⟨600, []⟩]
          ['1', '0', '0', '-', '5', '0', '0'] ↔
      (⟨250, []⟩ : FilterProduct) ∈ [(⟨250, []⟩ : FilterProduct), ⟨600, []⟩] ∧
        (((100 : ℚ) ≤ 250 ∧ (250 : ℚ) ≤ 500)
          ∨ (true = false ∧ ∃ q ∈ ([] : List ℚ), (100 : ℚ) ≤ q ∧ q ≤ 500)))
    ∧ ProductFilter.filter_by_price_range true [⟨250, []⟩] ['a', 'b', 'c'] = [] :=
  ⟨(filter_by_price_range_spec [⟨250, []⟩, ⟨600, []⟩] true
        ['1', '0', '0', '-', '5', '0', '0']).1
      ['1', '0', '0'] ['5', '0', '0'] 100 500 (by decide) (by decide) (by decide)
      ⟨250, []⟩,
    (filter_by_price_range_spec [⟨250, []⟩] true ['a', 'b', 'c']).2.2.2.2.2
      (by decide) (by decide) (by decide) (by decide)⟩

/-- Embedding of `ImprovedProductMatcher.calculate_price_similarity`
(improved_product_matcher.py lines 137–156) on numeric prices. Python's
`not price` is true for a zero `Decimal`/`float`, so the opening guard
`if not price1 or not price2: return 0` already returns 0 whenever either
price is zero; the later `p1 == 0 and p2 == 0` branch returning 1.0 is
kept in the embedding but is unreachable, exactly as in the source. -/
def calculate_price_similarity (price1 price2 : ℚ) : ℚ :=
  if price1 = 0 ∨ price2 = 0 then 0
  else if price1 = 0 ∧ price2 = 0 then 1
  else if price1 = 0 ∨ price2 = 0 then 0
  else max 0 (1 - |price1 - price2| / max price1 price2)

/-- C7: at the failing input `price1 = price2 = 0` the code returns 0 —
not the claimed 1.0, because the falsy guard fires before the dedicated
both-zero branch — while the claim's other two parts do hold: the
`max(0, 1 - |p1-p2|/max(p1,p2))` formula for two positive prices, and 0
when exactly one price is zero. -/
theorem calculate_price_similarity_divergence :
    calculate_price_similarity 0 0 = 0
    ∧ (∀ p1 p2 : ℚ, 0 < p1 → 0 < p2 →
        calculate_price_similarity p1 p2 = max 0 (1 - |p1 - p2| / max p1 p2))
    ∧ (∀ p : ℚ, 0 < p →
        calculate_price_similarity p 0 = 0 ∧ calculate_price_similarity 0 p = 0) := by
  refine ⟨by simp [calculate_price_similarity], ?_, ?_⟩
  · intro p1 p2 hp1 hp2
    simp [calculate_price_similarity, hp1.ne', hp2.ne']
  · intro p hp
    constructor <;> simp [calculate_price_similarity]

/-- Closed witness: the divergence theorem applied at prices 50 and 40
(positive case) and at 50 paired with zero. -/
theorem calculate_price_similarity_divergence_witness :
    calculate_price_similarity 50 40 = max 0 (1 - |(50 : ℚ) - 40| / max 50 40)
    ∧ calculate_price_similarity 50 0 = 0 :=
  ⟨calculate_price_similarity_divergence.2.1 50 40 (by norm_num) (by norm_num),
    (calculate_price_similarity_divergence.2.2 50 (by norm_num)).1⟩

/-- Modelled from the spec: the cart-centric design iteration's `CartItem`
(the Cart/CartItem model code is not in the provided source tree): a
product, a quantity (default 1, unique per cart and product) and the
selected attributes. -/
structure CartItem where
  product : Product
  quantity : Nat
  attributes : List Attribute
  deriving Repr, DecidableEq

/-- Modelled from the spec: a session-scoped `Cart`; only the item rows
matter to `to_order`. -/
structure Cart where
  items : List CartItem
  deriving Repr, DecidableEq

/-- Modelled from the spec: a cart item's price-with-attributes, the
product's attribute-adjusted price. -/
def CartItem.price_with_attributes (ci : CartItem) : ℚ :=
  ci.product.get_price_with_attributes ci.attributes

/-- An `OrderItem` snapshot row: copied name, description and
checkout-time price, plus the ordered quantity. -/
structure OrderItemRow where
  item_name : String
  item_description : String
  price : ℚ
  quantity : Nat
  deriving Repr

/-- An order as materialized by checkout: its total and its item rows. -/
structure CheckoutOrder where
  total_amount : ℚ
  items : List OrderItemRow
  deriving Repr

/-- Modelled from the spec: `Cart.to_order(order_data)` raises an error on
an empty cart (creating no order); otherwise it atomically materializes an
Order whose `total_amount` is the sum over cart items of
price-with-attributes times quantity, one OrderItem per cart item copying
the product's name/description and checkout-time price, then clears the
cart. -/
def Cart.to_order (c : Cart) : Except String (CheckoutOrder × Cart) :=
  if c.items = [] then .error "Корзина пуста"
  else
    .ok
      ({ total_amount :=
          (c.items.map
            (fun ci => ci.price_with_attributes * (ci.quantity : ℚ))).sum,
         items := c.items.map (fun ci =>
          { item_name := ci.product.name,
            item_description := ci.product.description,
            price := ci.price_with_attributes,
            quantity := ci.quantity }) },
        { items := [] })

/-- C8: `to_order` on a non-empty cart produces an order totalling the sum
of price-with-attributes times quantity over the cart items, one snapshot
OrderItem per cart item, and leaves the cart with zero items; on an empty
cart it fails and no order is produced. -/
theorem cart_to_order_spec (c : Cart) :
    (c.items = [] → ∀ o cleared, c.to_order ≠ .ok (o, cleared))
    ∧ (c.items ≠ [] →
        ∃ o cleared, c.to_order = .ok (o, cleared)
          ∧ o.total_amount =
              (c.items.map (fun ci =>
                ci.product.get_price_with_attributes ci.attributes
                  * (ci.quantity : ℚ))).sum
          ∧ o.items.length = c.items.length
          ∧ List.Forall₂ (fun (oi : OrderItemRow) (ci : CartItem) =>
              oi.item_name = ci.product.name
                ∧ oi.item_description = ci.product.description
                ∧ oi.price = ci.product.get_price_with_attributes ci.attributes
                ∧ oi.quantity = ci.quantity) o.items c.items
          ∧ cleared.items = []) := by
  constructor
  · intro hemp o cleared
    unfold Cart.to_order
    simp [hemp]
  · intro hne
    unfold Cart.to_order
    rw [if_neg hne]
    refine ⟨_, _, rfl, ?_, ?_, ?_, rfl⟩
    · simp [CartItem.price_with_attributes]
    · simp
    · simp only [List.forall₂_map_left_iff]
      rw [List.forall₂_same]
      intro ci _
      exact ⟨rfl, rfl, rfl, rfl⟩

/-- Closed witness: the spec's checkout example — quantity 2 of a product
priced 10.00 and quantity 1 of one priced 20.00, no attributes — applied
to the C8 theorem. -/
theorem cart_to_order_spec_witness :
    ∃ o cleared,
      (Cart.mk [⟨⟨1, "A", "", 10, none, true⟩, 2, []⟩,
        ⟨⟨2, "B", "", 20, none, true⟩, 1, []⟩]).to_order = .ok (o, cleared)
        ∧ o.total_amount =
            (([⟨⟨1, "A", "", 10, none, true⟩, 2, []⟩,
              ⟨⟨2, "B", "", 20, none, true⟩, 1, []⟩] : List CartItem).map
              (fun ci => ci.product.get_price_with_attributes ci.attributes
                * (ci.quantity : ℚ))).sum
        ∧ o.items.length =
            ([⟨⟨1, "A", "", 10, none, true⟩, 2, []⟩,
              ⟨⟨2, "B", "", 20, none, true⟩, 1, []⟩] : List CartItem).length
        ∧ List.Forall₂ (fun (oi : OrderItemRow) (ci : CartItem) =>
            oi.item_name = ci.product.name
              ∧ oi.item_description = ci.product.description
              ∧ oi.price = ci.product.get_price_with_attributes ci.attributes
              ∧ oi.quantity = ci.quantity) o.items
            [⟨⟨1, "A", "", 10, none, true⟩, 2, []⟩,
              ⟨⟨2, "B", "", 20, none, true⟩, 1, []⟩]
        ∧ cleared.items = [] :=
  (cart_to_order_spec
    (Cart.mk [⟨⟨1, "A", "", 10, none, true⟩, 2, []⟩,
      ⟨⟨2, "B", "", 20, none, true⟩, 1, []⟩])).2 (by simp)

/-- Embedding of the per-item snapshot price computed inside
`OrderViewSet.create` (views.py lines 567–629): the price starts as the
plain `product.price`; only when the submitted item carries a non-empty
`attribute_ids` list is it replaced by `get_price_with_attributes` over
`Attribute.objects.filter(id__in=attribute_ids)` (note: no `is_active`
filter here, unlike the calculate-price endpoint). -/
def orderItemPrice (db_attributes : List Attribute) (product : Product)
    (attribute_ids : List Nat) : ℚ :=
  if attribute_ids ≠ [] then
    product.get_price_with_attributes
      (db_attributes.filter (fun a => attribute_ids.contains a.id))
  else product.price

/-- The running `total_amount` accumulated by the create loop:
`total_amount += price * quantity` over the submitted items
(product, attribute_ids, quantity). -/
def createOrderTotal (db_attributes : List Attribute)
    (items : List (Product × List Nat × Nat)) : ℚ :=
  items.foldl
    (fun acc it => acc + orderItemPrice db_attributes it.1 it.2.1 * (it.2.2 : ℚ)) 0

/-- C9: for a product with a promotional price, an order item submitted
without `attribute_ids` is snapshotted at the plain `price` field
(promotional price ignored), while one submitted with `attribute_ids`
starts from the promotional price plus the matched modifiers — so with
modifiers summing to zero and a promotional price different from the
plain price, the stored price differs depending solely on whether
attributes were selected. -/
theorem order_create_snapshot_price (db : List Attribute) (p : Product)
    (pp : ℚ) (hp : p.promotional_price = some pp) :
    orderItemPrice db p [] = p.price
    ∧ (∀ ids, ids ≠ [] →
        orderItemPrice db p ids =
          pp + ((db.filter (fun a => ids.contains a.id)).map
            Attribute.price_modifier).sum)
    ∧ (∀ ids, ids ≠ [] →
        ((db.filter (fun a => ids.contains a.id)).map
          Attribute.price_modifier).sum = 0 →
        pp ≠ p.price →
        orderItemPrice db p ids ≠ orderItemPrice db p []) := by
  have h1 : orderItemPrice db p [] = p.price := by
    simp [orderItemPrice]
  have h2 : ∀ ids, ids ≠ [] →
      orderItemPrice db p ids =
        pp + ((db.filter (fun a => ids.contains a.id)).map
          Attribute.price_modifier).sum := by
    intro ids hids
    unfold orderItemPrice Product.get_price_with_attributes
    rw [if_pos hids, hp]
    simp [foldl_add_price_modifier]
  refine ⟨h1, h2, ?_⟩
  intro ids hids hsum hne
  rw [h1, h2 ids hids, hsum, add_zero]
  exact hne

/-- Closed witness: a product with price 45 and promotional price 40, and
a zero-modifier attribute with id 7 — the snapshot differs between a
no-attributes submission (45) and a `[7]` submission (40). -/
theorem order_create_snapshot_price_witness :
    orderItemPrice [⟨7, 0, true⟩] ⟨1, "rose", "", 45, some 40, true⟩ [] =
        (⟨1, "rose", "", 45, some 40, true⟩ : Product).price
    ∧ orderItemPrice [⟨7, 0, true⟩] ⟨1, "rose", "", 45, some 40, true⟩ [7]
        ≠ orderItemPrice [⟨7, 0, true⟩] ⟨1, "rose", "", 45, some 40, true⟩ [] :=
  ⟨(order_create_snapshot_price [⟨7, 0, true⟩]
      ⟨1, "rose", "", 45, some 40, true⟩ 40 rfl).1,
    (order_create_snapshot_price [⟨7, 0, true⟩]
      ⟨1, "rose", "", 45, some 40, true⟩ 40 rfl).2.2 [7] (by decide)
      (by simp) (by norm_num)⟩

/-- The result of `__get_data_item` on one review card: parsed review
payload, or `none` for a falsy/failed parse. The DOM itself is not
modelled. -/
structure ReviewData where
  author : String
  text : String
  deriving Repr, DecidableEq

/-- The page state `get_reviews_incremental` observes: the review cards
initially present and the card list after scrolling to the bottom. -/
structure ReviewsPage where
  initial_cards : List (Option ReviewData)
  cards_after_scroll : List (Option ReviewData)
  deriving Repr

/-- Embedding of `Reviews.get_reviews_incremental` (parsers.py lines
231–284): only when more than one review card is initially present does
it scroll, refresh the card list and process it; a parsed card is handed
to the callback when one is given (counted on success) and counted
unconditionally when no callback is given. Returns the processed count
together with the trace of reviews passed to the callback. -/
def Reviews.get_reviews_incremental (page : ReviewsPage)
    (callback : Option (ReviewData → Bool)) : Nat × List ReviewData :=
  if page.initial_cards.length > 1 then
    page.cards_after_scroll.foldl
      (fun acc card =>
        match card with
        | some review_data =>
            match callback with
            | some cb =>
                if cb review_data then (acc.1 + 1, acc.2 ++ [review_data])
                else (acc.1, acc.2 ++ [review_data])
            | none => (acc.1 + 1, acc.2)
        | none => acc)
      (0, [])
  else (0, [])

/-- C10: when the page initially shows exactly one review card, nothing is
scrolled or parsed: the callback is never invoked (empty trace) and the
returned processed count is 0, whatever the post-scroll cards would be. -/
theorem get_reviews_incremental_single_card (page : ReviewsPage)
    (h : page.initial_cards.length = 1)
    (callback : Option (ReviewData → Bool)) :
    Reviews.get_reviews_incremental page callback = (0, []) := by
  unfold Reviews.get_reviews_incremental
  rw [if_neg]
  omega

/-- Closed witness: a page with a single review card (and two cards that
would appear after scrolling) processes nothing even with an
always-succeeding callback. -/
theorem get_reviews_incremental_single_card_witness :
    Reviews.get_reviews_incremental
        ⟨[some ⟨"u", "great"⟩], [some ⟨"u", "great"⟩, some ⟨"v", "bad"⟩]⟩
        (some (fun _ => true)) = (0, []) :=
  get_reviews_incremental_single_card
    ⟨[some ⟨"u", "great"⟩], [some ⟨"u", "great"⟩, some ⟨"v", "bad"⟩]⟩
    (by decide) (some (fun _ => true))

end Topcvetok
